import Mathlib

/-!
Verification of the mcpui-go SDK core: the content codec (content.go),
the resource-contents builder (resources), the action payload parser
(action.go), the router and handler adapters (handler.go), and the
response builder (response.go).

Modelling conventions:
* Go strings are modelled as `List Char` (`GoStr`); Go byte slices as
  `List Nat` with an explicit `< 256` bound where it matters.
* Go maps are modelled as functions to `Option`.
* JSON serialization with `omitempty` is modelled by an explicit record
  whose `Option` fields record whether a key is present in the output.
* Fallible Go functions returning `(T, error)` are modelled with
  `Except` when exactly one side is meaningful, and as explicit pairs
  where the Go code can mix them.
* A nil-pointer dereference is modelled as an explicit `nilDeref`
  outcome.
-/

namespace Mcpui

/-- Go strings, modelled as lists of characters. -/
abbrev GoStr := List Char

/-! ### base64 (model of Go's encoding/base64 StdEncoding) -/

/-- The standard base64 alphabet used by Go's `base64.StdEncoding`. -/
def b64alphabet : List Char :=
  "ABCDEFGHIJKLMNOPQRSTUVWXYZabcdefghijklmnopqrstuvwxyz0123456789+/".toList

/-- Character for a six-bit value. -/
def b64char (n : Nat) : Char := b64alphabet.getD n 'A'

/-- Six-bit value of an alphabet character, `none` for characters outside
the alphabet (including the padding character `=`). -/
def b64val (c : Char) : Option Nat := b64alphabet.findIdx? (· = c)

/-- `base64.StdEncoding.EncodeToString`: three bytes become four
characters; a final group of one or two bytes is padded with `=`. -/
def b64encodeList : List Nat → List Char
  | [] => []
  | [b0] => [b64char (b0 / 4), b64char (b0 % 4 * 16), '=', '=']
  | [b0, b1] => [b64char (b0 / 4), b64char (b0 % 4 * 16 + b1 / 16),
      b64char (b1 % 16 * 4), '=']
  | b0 :: b1 :: b2 :: rest =>
      b64char (b0 / 4) :: b64char (b0 % 4 * 16 + b1 / 16) ::
      b64char (b1 % 16 * 4 + b2 / 64) :: b64char (b2 % 64) :: b64encodeList rest

/-- `base64.StdEncoding.DecodeString`: groups of four characters decode to
three bytes; `=` padding is accepted only at the end; any other shape or a
character outside the alphabet is an error (`none`). -/
def b64decodeList : List Char → Option (List Nat)
  | [] => some []
  | c0 :: c1 :: c2 :: c3 :: rest => do
      let v0 ← b64val c0
      let v1 ← b64val c1
      if c2 = '=' then
        if c3 = '=' ∧ rest = [] then some [v0 * 4 + v1 / 16] else none
      else do
        let v2 ← b64val c2
        if c3 = '=' then
          if rest = [] then some [v0 * 4 + v1 / 16, v1 % 16 * 16 + v2 / 4]
          else none
        else do
          let v3 ← b64val c3
          let tail ← b64decodeList rest
          some ([v0 * 4 + v1 / 16, v1 % 16 * 16 + v2 / 4, v2 % 4 * 64 + v3] ++ tail)
  | _ => none

theorem b64val_b64char_fin : ∀ n : Fin 64, b64val (b64char n.val) = some n.val := by
  decide

theorem b64char_ne_pad_fin : ∀ n : Fin 64, b64char n.val ≠ '=' := by
  decide

theorem b64val_b64char {n : Nat} (h : n < 64) : b64val (b64char n) = some n :=
  b64val_b64char_fin ⟨n, h⟩

theorem b64char_ne_pad {n : Nat} (h : n < 64) : b64char n ≠ '=' :=
  b64char_ne_pad_fin ⟨n, h⟩

/-- Decoding inverts encoding on genuine byte lists. -/
theorem b64decode_b64encode : ∀ (data : List Nat), (∀ b ∈ data, b < 256) →
    b64decodeList (b64encodeList data) = some data
  | [], _ => rfl
  | [b0], h => by
    have hb0 : b0 < 256 := h b0 (by simp)
    rw [b64encodeList, b64decodeList]
    rw [b64val_b64char (show b0 / 4 < 64 by omega),
      b64val_b64char (show b0 % 4 * 16 < 64 by omega)]
    simp only [Option.bind_eq_bind, Option.some_bind]
    simp
    omega
  | [b0, b1], h => by
    have hb0 : b0 < 256 := h b0 (by simp)
    have hb1 : b1 < 256 := h b1 (by simp)
    rw [b64encodeList, b64decodeList]
    rw [b64val_b64char (show b0 / 4 < 64 by omega),
      b64val_b64char (show b0 % 4 * 16 + b1 / 16 < 64 by omega),
      b64val_b64char (show b1 % 16 * 4 < 64 by omega)]
    have hne := b64char_ne_pad (show b1 % 16 * 4 < 64 by omega)
    simp [hne]
    omega
  | b0 :: b1 :: b2 :: rest, h => by
    have hb0 : b0 < 256 := h b0 (by simp)
    have hb1 : b1 < 256 := h b1 (by simp)
    have hb2 : b2 < 256 := h b2 (by simp)
    have ih := b64decode_b64encode rest (fun b hb => h b (by simp [hb]))
    rw [b64encodeList, b64decodeList]
    rw [b64val_b64char (show b0 / 4 < 64 by omega),
      b64val_b64char (show b0 % 4 * 16 + b1 / 16 < 64 by omega),
      b64val_b64char (show b1 % 16 * 4 + b2 / 64 < 64 by omega),
      b64val_b64char (show b2 % 64 < 64 by omega)]
    have hne2 := b64char_ne_pad (show b1 % 16 * 4 + b2 / 64 < 64 by omega)
    have hne3 := b64char_ne_pad (show b2 % 64 < 64 by omega)
    simp [hne2, hne3, ih]
    omega

/-- Encoding yields the empty string exactly on the empty byte list. -/
theorem b64encodeList_eq_nil_iff (data : List Nat) :
    b64encodeList data = [] ↔ data = [] := by
  match data with
  | [] => simp [b64encodeList]
  | [b0] => simp [b64encodeList]
  | [b0, b1] => simp [b64encodeList]
  | b0 :: b1 :: b2 :: rest => simp [b64encodeList]

/-! ### Content model (content.go) -/

/-- MIME type constant `MIMETypeHTML = "text/html"`. -/
def MIMETypeHTML : GoStr := "text/html".toList

/-- MIME type constant `MIMETypeURLList = "text/uri-list"`. -/
def MIMETypeURLList : GoStr := "text/uri-list".toList

/-- MIME type constant
`MIMETypeRemoteDOM = "application/vnd.mcp-ui.remote-dom"`. -/
def MIMETypeRemoteDOM : GoStr := "application/vnd.mcp-ui.remote-dom".toList

/-- `Annotations`: audience list and optional priority.  Go slices are
modelled as lists (a nil slice and an empty slice coincide), and the
`float64` priority as a rational number. -/
structure Annots where
  audience : List GoStr
  priority : Option ℚ
deriving DecidableEq

/-- The four `UIContent` variants: `HTMLContent`, `URLContent`,
`RemoteDOMContent` (its `Framework` is a Go string type) and
`BlobContent`. -/
inductive UIContent where
  | html (html : GoStr) (annots : Option Annots)
  | url (url : GoStr) (annots : Option Annots)
  | remoteDOM (script : GoStr) (framework : GoStr) (annots : Option Annots)
  | blob (data : List Nat) (contentMIMEType : GoStr) (annots : Option Annots)
deriving DecidableEq

/-- `wireUIContent`, the wire struct shared by all content variants, as a
Go value (before JSON serialization). -/
structure WireUIContent where
  mimeType : GoStr
  text : GoStr
  blob : GoStr
  annots : Option Annots
deriving DecidableEq

/-- The composite MIME type `RemoteDOMContent.MarshalJSON` builds:
the base type plus `+javascript`, and `; framework=<tag>` when the
framework tag is non-empty. -/
def remoteDOMMimeType (framework : GoStr) : GoStr :=
  let base := MIMETypeRemoteDOM ++ "+javascript".toList
  if framework = [] then base else base ++ "; framework=".toList ++ framework

/-- The `MarshalJSON` methods of the four variants, up to the point where
the wire struct is handed to `json.Marshal`: `HTMLContent`, `URLContent`
and `RemoteDOMContent` fill `Text`; `BlobContent` fills `Blob` with the
base64 encoding of its data. -/
def marshalContent : UIContent → WireUIContent
  | .html h a => { mimeType := MIMETypeHTML, text := h, blob := [], annots := a }
  | .url u a => { mimeType := MIMETypeURLList, text := u, blob := [], annots := a }
  | .remoteDOM s fw a =>
      { mimeType := remoteDOMMimeType fw, text := s, blob := [], annots := a }
  | .blob d m a =>
      { mimeType := m, text := [], blob := b64encodeList d, annots := a }

/-- The serialized JSON object of a `wireUIContent`: `mimeType` has no
`omitempty`, while `text`, `blob` and `annotations` are omitted when
empty/nil.  An `Option` field records whether the key is present. -/
structure EncodedWire where
  mimeType : GoStr
  textField : Option GoStr
  blobField : Option GoStr
  annotsField : Option Annots
deriving DecidableEq

/-- `json.Marshal` of a `wireUIContent` (field presence under
`omitempty`). -/
def marshalWireJson (w : WireUIContent) : EncodedWire :=
  { mimeType := w.mimeType
    textField := if w.text = [] then none else some w.text
    blobField := if w.blob = [] then none else some w.blob
    annotsField := w.annots }

/-- `json.Unmarshal` of a content wire object: absent fields decode to
the Go zero values. -/
def unmarshalWireJson (e : EncodedWire) : WireUIContent :=
  { mimeType := e.mimeType
    text := e.textField.getD []
    blob := e.blobField.getD []
    annots := e.annotsField }

/-- `strings.Index`: first index at which `needle` occurs in `hay`,
`none` when absent. -/
def goIndex (needle : GoStr) : GoStr → Option Nat
  | [] => if needle.isPrefixOf [] then some 0 else none
  | c :: t =>
    if needle.isPrefixOf (c :: t) then some 0
    else (goIndex needle t).map (· + 1)

/-- `strings.IndexAny`: first index of any of `chars` in `s`. -/
def goIndexAny (s : GoStr) (chars : GoStr) : Option Nat :=
  s.findIdx? (· ∈ chars)

/-- The framework extraction inside `RemoteDOMContent.fromWire`: find
`framework=` in the MIME type, take what follows, and trim at the first
`;` or space.  When `framework=` is absent the framework stays the Go
zero value `""`. -/
def parseFramework (mimeType : GoStr) : GoStr :=
  match goIndex ("framework=".toList) mimeType with
  | none => []
  | some idx =>
    let part := mimeType.drop (idx + ("framework=".toList).length)
    match goIndexAny part ("; ".toList) with
    | none => part
    | some endIdx => part.take endIdx

/-- `ContentFromWire`: dispatch on the MIME type — exact match for HTML
and URL list, prefix match for remote-DOM, then the blob case when the
wire blob is non-empty, otherwise an unknown-MIME-type error. -/
def ContentFromWire (wire : WireUIContent) : Except GoStr UIContent :=
  if wire.mimeType = MIMETypeHTML then
    .ok (.html wire.text wire.annots)
  else if wire.mimeType = MIMETypeURLList then
    .ok (.url wire.text wire.annots)
  else if MIMETypeRemoteDOM.isPrefixOf wire.mimeType then
    .ok (.remoteDOM wire.text (parseFramework wire.mimeType) wire.annots)
  else if wire.blob ≠ [] then
    match b64decodeList wire.blob with
    | some d => .ok (.blob d wire.mimeType wire.annots)
    | none => .error ("failed to decode base64 blob".toList)
  else
    .error ("unknown content MIME type: ".toList ++ wire.mimeType)

/-- Decode applied to the serialized output of encode: `MarshalJSON`,
the JSON byte round trip into a `wireUIContent`, then
`ContentFromWire`. -/
def roundTripContent (c : UIContent) : Except GoStr UIContent :=
  ContentFromWire (unmarshalWireJson (marshalWireJson (marshalContent c)))

/-- The JSON byte trip is the identity on wire structs: omitted fields
decode back to the zero values they were omitted for. -/
theorem unmarshalWireJson_marshalWireJson (w : WireUIContent) :
    unmarshalWireJson (marshalWireJson w) = w := by
  rcases w with ⟨mt, tx, bl, an⟩
  simp only [marshalWireJson, unmarshalWireJson, WireUIContent.mk.injEq]
  refine ⟨trivial, ?_, ?_, trivial⟩ <;> split <;> simp_all

theorem roundTripContent_eq (c : UIContent) :
    roundTripContent c = ContentFromWire (marshalContent c) := by
  rw [roundTripContent, unmarshalWireJson_marshalWireJson]

theorem parseFramework_react :
    parseFramework (remoteDOMMimeType "react".toList) = "react".toList := by decide

theorem parseFramework_webcomponents :
    parseFramework (remoteDOMMimeType "webcomponents".toList) =
      "webcomponents".toList := by decide

theorem parseFramework_empty : parseFramework (remoteDOMMimeType []) = [] := by decide

/-- When none of the three text MIME conditions hold and the wire blob is
non-empty, `ContentFromWire` takes the blob branch. -/
theorem ContentFromWire_blob (w : WireUIContent)
    (h1 : w.mimeType ≠ MIMETypeHTML) (h2 : w.mimeType ≠ MIMETypeURLList)
    (h3 : MIMETypeRemoteDOM.isPrefixOf w.mimeType = false) (h4 : w.blob ≠ []) :
    ContentFromWire w =
      match b64decodeList w.blob with
      | some d => .ok (.blob d w.mimeType w.annots)
      | none => .error ("failed to decode base64 blob".toList) := by
  rw [ContentFromWire, if_neg h1, if_neg h2, if_neg (by simp [h3]), if_pos h4]

/-- C1 (counterexample): the round trip does NOT succeed for a
zero-length blob.  Encoding `BlobContent{Data: []}` base64-encodes to the
empty string, JSON omits the `blob` key (`omitempty`), and decoding the
resulting envelope fails with an unknown-MIME-type error instead of
returning a blob variant. -/
theorem c1_round_trip_counterexample :
    roundTripContent (.blob [] ("image/png".toList) none) =
      .error ("unknown content MIME type: image/png".toList) := by
  rfl

/-- C1 (amended): decoding the encoded wire envelope reproduces the
variant's observable fields for: every inline-HTML variant (including
empty markup), every external-URL variant, every remote-DOM variant whose
framework tag is one of the closed enum (empty, `react`,
`webcomponents`), and every binary-blob variant with at least one byte
whose MIME type is not one of the reserved text MIME types.  A zero-length
blob fails to round-trip (see the counterexample), as does a blob whose
MIME type collides with a reserved text type. -/
theorem c1_round_trip :
    (∀ h a, roundTripContent (.html h a) = .ok (.html h a)) ∧
    (∀ u a, roundTripContent (.url u a) = .ok (.url u a)) ∧
    (∀ s fw a, (fw = [] ∨ fw = "react".toList ∨ fw = "webcomponents".toList) →
      roundTripContent (.remoteDOM s fw a) = .ok (.remoteDOM s fw a)) ∧
    (∀ d m a, d ≠ [] → (∀ b ∈ d, b < 256) →
      m ≠ MIMETypeHTML → m ≠ MIMETypeURLList →
      MIMETypeRemoteDOM.isPrefixOf m = false →
      roundTripContent (.blob d m a) = .ok (.blob d m a)) := by
  refine ⟨fun h a => ?_, fun u a => ?_, fun s fw a hfw => ?_,
    fun d m a hd hb h1 h2 h3 => ?_⟩
  · rw [roundTripContent_eq]; rfl
  · rw [roundTripContent_eq]; rfl
  · rcases hfw with rfl | rfl | rfl <;> (rw [roundTripContent_eq]; rfl)
  · rw [roundTripContent_eq,
      show marshalContent (.blob d m a) = ⟨m, [], b64encodeList d, a⟩ from rfl]
    have hbne : b64encodeList d ≠ [] := fun hh => hd ((b64encodeList_eq_nil_iff d).mp hh)
    rw [ContentFromWire_blob ⟨m, [], b64encodeList d, a⟩ h1 h2 h3 hbne]
    simp only [b64decode_b64encode d hb]

/-- C1 (witness): the amended round trip at concrete inputs — a
remote-DOM variant with framework `react`, and a four-byte PNG-tagged
blob. -/
theorem c1_round_trip_witness :
    roundTripContent (.remoteDOM ("x".toList) ("react".toList) none) =
      .ok (.remoteDOM ("x".toList) ("react".toList) none) ∧
    roundTripContent (.blob [137, 80, 78, 71] ("image/png".toList) none) =
      .ok (.blob [137, 80, 78, 71] ("image/png".toList) none) :=
  ⟨c1_round_trip.2.2.1 _ _ _ (Or.inr (Or.inl rfl)),
   c1_round_trip.2.2.2 _ _ _ (by decide) (by decide) (by decide) (by decide)
     (by decide)⟩

/-- C3 (counterexample): the serialized wire form of a zero-byte
`BlobContent` does NOT contain a `blob` key at all — `wireUIContent`'s
`blob` field has `omitempty`, so the empty base64 string is omitted
rather than serialized as a present, empty value. -/
theorem c3_zero_blob_field_omitted :
    (marshalWireJson (marshalContent (.blob [] ("image/png".toList) none))).blobField
      = none := by
  decide

/-- C3 (amended): encoding a blob variant always fills the wire struct's
blob string with the base64 encoding of the data, but in the serialized
JSON the `blob` key is present iff the data is non-empty; a zero-byte
blob's serialized form omits the key. -/
theorem c3_blob_field_presence (d : List Nat) (m : GoStr) (a : Option Annots) :
    (marshalWireJson (marshalContent (.blob d m a))).blobField =
      if d = [] then none else some (b64encodeList d) := by
  simp [marshalContent, marshalWireJson, b64encodeList_eq_nil_iff]

/-! ### Resource contents (UIResourceContents) -/

/-- `UIResourceContents`: URI-addressed contents.  `Blob` is a Go byte
slice whose nil/non-nil distinction matters, hence `Option`. -/
structure UIResourceContents where
  uri : GoStr
  mimeType : GoStr
  text : GoStr
  blob : Option (List Nat)
  annots : Option Annots
deriving DecidableEq

/-- The serialized JSON object of a `UIResourceContents` (field
presence). -/
structure EncodedRC where
  uriField : Option GoStr
  mimeTypeField : Option GoStr
  textField : Option GoStr
  blobField : Option GoStr
  annotsField : Option Annots
deriving DecidableEq

/-- `UIResourceContents.MarshalJSON`: missing URI is an error; a nil blob
marshals the plain struct (text path, `uri` has no `omitempty`); a
non-nil blob with non-empty text is an error; otherwise an alternative
struct is used whose `blob` key is always present (no `omitempty`), with
the bytes base64-encoded. -/
def UIResourceContents.MarshalJSON (r : UIResourceContents) :
    Except GoStr EncodedRC :=
  if r.uri = [] then .error ("UIResourceContents missing URI".toList)
  else
    match r.blob with
    | none =>
      .ok { uriField := some r.uri
            mimeTypeField := if r.mimeType = [] then none else some r.mimeType
            textField := if r.text = [] then none else some r.text
            blobField := none
            annotsField := r.annots }
    | some b =>
      if r.text ≠ [] then
        .error ("UIResourceContents has non-zero Text and Blob fields".toList)
      else
        .ok { uriField := if r.uri = [] then none else some r.uri
              mimeTypeField := if r.mimeType = [] then none else some r.mimeType
              textField := none
              blobField := some (b64encodeList b)
              annotsField := r.annots }

/-- `NewUIResourceContents`: serialize the content (a nil content or an
empty URI is an error), read the JSON back into a wire struct, then route
the body to `Blob` (base64-decoded) when the wire blob string is
non-empty and to `Text` otherwise. -/
def NewUIResourceContents (uri : GoStr) (content : Option UIContent) :
    Except GoStr UIResourceContents :=
  if uri = [] then .error ("URI is required".toList)
  else
    match content with
    | none => .error ("content is required".toList)
    | some c =>
      let wire := unmarshalWireJson (marshalWireJson (marshalContent c))
      if wire.blob ≠ [] then
        match b64decodeList wire.blob with
        | some d =>
          .ok { uri := uri, mimeType := wire.mimeType, text := [],
                blob := some d, annots := wire.annots }
        | none => .error ("failed to decode base64 blob".toList)
      else
        .ok { uri := uri, mimeType := wire.mimeType, text := wire.text,
              blob := none, annots := wire.annots }

/-- A variant whose encoded body is empty: a blob variant with zero bytes
or a text variant whose payload string is empty. -/
def emptyBodied : UIContent → Bool
  | .html h _ => h.isEmpty
  | .url u _ => u.isEmpty
  | .remoteDOM s _ _ => s.isEmpty
  | .blob d _ _ => d.isEmpty

/-- Byte lists of a blob variant really are bytes. -/
def contentWF : UIContent → Prop
  | .blob d _ _ => ∀ b ∈ d, b < 256
  | _ => True

/-- C5 (counterexample): `NewUIResourceContents` of an inline-HTML
variant with empty markup also yields a record with neither text nor blob
populated, although the source variant is not blob-bearing — refuting the
claim's "only when the source variant is blob-bearing with exactly zero
bytes". -/
theorem c5_exclusivity_counterexample :
    NewUIResourceContents ("ui://x".toList) (some (.html [] none)) =
      .ok { uri := "ui://x".toList, mimeType := MIMETypeHTML, text := [],
            blob := none, annots := none } := by
  rfl

/-- C5 (amended): serializing a record with non-empty text and a non-nil
blob fails with a validation error; and a record built by
`NewUIResourceContents` has neither text nor blob populated exactly when
the source variant's body is empty — a blob-bearing variant with zero
bytes OR a text-bearing variant whose payload string is empty. -/
theorem c5_resource_contents_exclusivity :
    (∀ r : UIResourceContents, r.text ≠ [] → r.blob ≠ none →
      ∃ e, r.MarshalJSON = .error e) ∧
    (∀ uri c rc, contentWF c →
      NewUIResourceContents uri (some c) = .ok rc →
      ((rc.text = [] ∧ rc.blob = none) ↔ emptyBodied c = true)) := by
  constructor
  · intro r htext hblob
    rw [UIResourceContents.MarshalJSON]
    by_cases hu : r.uri = []
    · exact ⟨_, by rw [if_pos hu]⟩
    · rw [if_neg hu]
      cases hb : r.blob with
      | none => exact absurd hb hblob
      | some b =>
        refine ⟨"UIResourceContents has non-zero Text and Blob fields".toList, ?_⟩
        simp [htext]
  · intro uri c rc hwf hok
    rw [NewUIResourceContents] at hok
    by_cases hu : uri = []
    · rw [if_pos hu] at hok
      exact absurd hok (by simp)
    · rw [if_neg hu] at hok
      simp only [unmarshalWireJson_marshalWireJson] at hok
      cases c with
      | html h a =>
        simp only [marshalContent] at hok
        rw [if_neg (by simp)] at hok
        simp only [Except.ok.injEq] at hok
        subst hok
        simp [emptyBodied, List.isEmpty_iff]
      | url u a =>
        simp only [marshalContent] at hok
        rw [if_neg (by simp)] at hok
        simp only [Except.ok.injEq] at hok
        subst hok
        simp [emptyBodied, List.isEmpty_iff]
      | remoteDOM s fw a =>
        simp only [marshalContent] at hok
        rw [if_neg (by simp)] at hok
        simp only [Except.ok.injEq] at hok
        subst hok
        simp [emptyBodied, List.isEmpty_iff]
      | blob d m a =>
        simp only [marshalContent] at hok
        by_cases hd : d = []
        · subst hd
          rw [if_neg (by simp [b64encodeList])] at hok
          simp only [Except.ok.injEq] at hok
          subst hok
          simp [emptyBodied]
        · rw [if_pos (show ¬((⟨m, [], b64encodeList d, a⟩ :
              WireUIContent).blob = []) from
              fun hh => hd ((b64encodeList_eq_nil_iff d).mp hh))] at hok
          rw [b64decode_b64encode d hwf] at hok
          simp only [Except.ok.injEq] at hok
          subst hok
          simp [emptyBodied, hd]

/-- C5 (witness): the amended claim at concrete inputs — serializing a
record with text `"t"` and blob `[1, 2]` fails, and the record built from
a zero-byte PNG blob has neither text nor blob populated. -/
theorem c5_exclusivity_witness :
    (∃ e, UIResourceContents.MarshalJSON
        { uri := "ui://b".toList, mimeType := [], text := "t".toList,
          blob := some [1, 2], annots := none } = .error e) ∧
    ((({ uri := "ui://z".toList, mimeType := "image/png".toList, text := [],
          blob := none, annots := none } : UIResourceContents).text = [] ∧
      ({ uri := "ui://z".toList, mimeType := "image/png".toList, text := [],
          blob := none, annots := none } : UIResourceContents).blob = none) ↔
      emptyBodied (.blob [] ("image/png".toList) none) = true) :=
  ⟨c5_resource_contents_exclusivity.1 _ (by decide) (by decide),
   c5_resource_contents_exclusivity.2 ("ui://z".toList)
     (.blob [] ("image/png".toList) none) _ (by simp [contentWF]) rfl⟩

/-! ### Actions and payloads (action.go) -/

/-- A JSON value, the model of what `json.RawMessage` payload bytes parse
to.  Go's `map[string]any` values are JSON values. -/
inductive JVal where
  | null
  | bool (b : Bool)
  | num (q : ℚ)
  | str (s : GoStr)
  | arr (elems : List JVal)
  | obj (fields : List (GoStr × JVal))

/-- The six action type constants. -/
def ActionTypeTool : GoStr := "tool".toList

def ActionTypeIntent : GoStr := "intent".toList

def ActionTypePrompt : GoStr := "prompt".toList

def ActionTypeNotify : GoStr := "notify".toList

def ActionTypeLink : GoStr := "link".toList

def ActionTypeUISize : GoStr := "ui-size-change".toList

/-- `UIAction`: type tag, optional message id, raw payload. -/
structure UIAction where
  type : GoStr
  messageID : GoStr
  payload : JVal

/-- Field lookup in a decoded JSON object (Go's field-name match). -/
def jlookup (fields : List (GoStr × JVal)) (key : GoStr) : Option JVal :=
  fields.lookup key

/-- Decoding a JSON value into a Go `string` field: absent and `null`
leave the zero value; only a JSON string succeeds otherwise. -/
def decodeStrField : Option JVal → Except GoStr GoStr
  | none => .ok []
  | some .null => .ok []
  | some (.str s) => .ok s
  | some _ => .error ("cannot unmarshal value into string field".toList)

/-- Decoding a JSON value into a Go `map[string]any` field. -/
def decodeMapField : Option JVal → Except GoStr (List (GoStr × JVal))
  | none => .ok []
  | some .null => .ok []
  | some (.obj fs) => .ok fs
  | some _ => .error ("cannot unmarshal value into map field".toList)

/-- Decoding a JSON value into a Go `int` field. -/
def decodeIntField : Option JVal → Except GoStr Int
  | none => .ok 0
  | some .null => .ok 0
  | some (.num q) =>
      if q.den = 1 then .ok q.num
      else .error ("cannot unmarshal number into int field".toList)
  | some _ => .error ("cannot unmarshal value into int field".toList)

/-- `ToolActionPayload`. -/
structure ToolActionPayload where
  toolName : GoStr
  params : List (GoStr × JVal)

/-- `IntentActionPayload`. -/
structure IntentActionPayload where
  intent : GoStr
  params : List (GoStr × JVal)

/-- `PromptActionPayload`. -/
structure PromptActionPayload where
  prompt : GoStr

/-- `NotifyActionPayload`. -/
structure NotifyActionPayload where
  message : GoStr
  level : GoStr

/-- `LinkActionPayload`. -/
structure LinkActionPayload where
  url : GoStr

/-- `UISizeActionPayload`. -/
structure UISizeActionPayload where
  height : Int
  width : Int

/-- `json.Unmarshal` into `ToolActionPayload`: the top level must be a
JSON object (`null` leaves the zero value). -/
def unmarshalToolPayload : JVal → Except GoStr ToolActionPayload
  | .null => .ok { toolName := [], params := [] }
  | .obj fs => do
      let tn ← decodeStrField (jlookup fs ("toolName".toList))
      let ps ← decodeMapField (jlookup fs ("params".toList))
      .ok { toolName := tn, params := ps }
  | _ => .error ("cannot unmarshal value into ToolActionPayload".toList)

/-- `json.Unmarshal` into `IntentActionPayload`. -/
def unmarshalIntentPayload : JVal → Except GoStr IntentActionPayload
  | .null => .ok { intent := [], params := [] }
  | .obj fs => do
      let it ← decodeStrField (jlookup fs ("intent".toList))
      let ps ← decodeMapField (jlookup fs ("params".toList))
      .ok { intent := it, params := ps }
  | _ => .error ("cannot unmarshal value into IntentActionPayload".toList)

/-- `json.Unmarshal` into `PromptActionPayload`. -/
def unmarshalPromptPayload : JVal → Except GoStr PromptActionPayload
  | .null => .ok { prompt := [] }
  | .obj fs => do
      let p ← decodeStrField (jlookup fs ("prompt".toList))
      .ok { prompt := p }
  | _ => .error ("cannot unmarshal value into PromptActionPayload".toList)

/-- `json.Unmarshal` into `NotifyActionPayload`. -/
def unmarshalNotifyPayload : JVal → Except GoStr NotifyActionPayload
  | .null => .ok { message := [], level := [] }
  | .obj fs => do
      let msg ← decodeStrField (jlookup fs ("message".toList))
      let lv ← decodeStrField (jlookup fs ("level".toList))
      .ok { message := msg, level := lv }
  | _ => .error ("cannot unmarshal value into NotifyActionPayload".toList)

/-- `json.Unmarshal` into `LinkActionPayload`. -/
def unmarshalLinkPayload : JVal → Except GoStr LinkActionPayload
  | .null => .ok { url := [] }
  | .obj fs => do
      let u ← decodeStrField (jlookup fs ("url".toList))
      .ok { url := u }
  | _ => .error ("cannot unmarshal value into LinkActionPayload".toList)

/-- `json.Unmarshal` into `UISizeActionPayload`. -/
def unmarshalUISizePayload : JVal → Except GoStr UISizeActionPayload
  | .null => .ok { height := 0, width := 0 }
  | .obj fs => do
      let ht ← decodeIntField (jlookup fs ("height".toList))
      let wd ← decodeIntField (jlookup fs ("width".toList))
      .ok { height := ht, width := wd }
  | _ => .error ("cannot unmarshal value into UISizeActionPayload".toList)

/-- The typed payload union `ParsePayload` returns (Go returns `any`). -/
inductive ActionPayload where
  | tool (p : ToolActionPayload)
  | intent (p : IntentActionPayload)
  | prompt (p : PromptActionPayload)
  | notify (p : NotifyActionPayload)
  | link (p : LinkActionPayload)
  | uiSize (p : UISizeActionPayload)

/-- `UIAction.ParsePayload`: a closed switch over the six action tags;
each known tag decodes into its record, wrapping decode failures with the
tag name; an unknown tag is an explicit error. -/
def UIAction.ParsePayload (a : UIAction) : Except GoStr ActionPayload :=
  if a.type = ActionTypeTool then
    match unmarshalToolPayload a.payload with
    | .ok p => .ok (.tool p)
    | .error e => .error ("invalid tool payload: ".toList ++ e)
  else if a.type = ActionTypeIntent then
    match unmarshalIntentPayload a.payload with
    | .ok p => .ok (.intent p)
    | .error e => .error ("invalid intent payload: ".toList ++ e)
  else if a.type = ActionTypePrompt then
    match unmarshalPromptPayload a.payload with
    | .ok p => .ok (.prompt p)
    | .error e => .error ("invalid prompt payload: ".toList ++ e)
  else if a.type = ActionTypeNotify then
    match unmarshalNotifyPayload a.payload with
    | .ok p => .ok (.notify p)
    | .error e => .error ("invalid notify payload: ".toList ++ e)
  else if a.type = ActionTypeLink then
    match unmarshalLinkPayload a.payload with
    | .ok p => .ok (.link p)
    | .error e => .error ("invalid link payload: ".toList ++ e)
  else if a.type = ActionTypeUISize then
    match unmarshalUISizePayload a.payload with
    | .ok p => .ok (.uiSize p)
    | .error e => .error ("invalid ui-size-change payload: ".toList ++ e)
  else
    .error ("unknown action type: ".toList ++ a.type)

/-- `UIAction.ToolPayload`: assert the tag, then decode (decode errors
are returned unwrapped). -/
def UIAction.ToolPayload (a : UIAction) : Except GoStr ToolActionPayload :=
  if a.type ≠ ActionTypeTool then
    .error ("action type is ".toList ++ a.type ++ ", not tool".toList)
  else unmarshalToolPayload a.payload

/-- `UIAction.IntentPayload`. -/
def UIAction.IntentPayload (a : UIAction) : Except GoStr IntentActionPayload :=
  if a.type ≠ ActionTypeIntent then
    .error ("action type is ".toList ++ a.type ++ ", not intent".toList)
  else unmarshalIntentPayload a.payload

/-- `UIAction.PromptPayload`. -/
def UIAction.PromptPayload (a : UIAction) : Except GoStr PromptActionPayload :=
  if a.type ≠ ActionTypePrompt then
    .error ("action type is ".toList ++ a.type ++ ", not prompt".toList)
  else unmarshalPromptPayload a.payload

/-- `UIAction.NotifyPayload`. -/
def UIAction.NotifyPayload (a : UIAction) : Except GoStr NotifyActionPayload :=
  if a.type ≠ ActionTypeNotify then
    .error ("action type is ".toList ++ a.type ++ ", not notify".toList)
  else unmarshalNotifyPayload a.payload

/-- `UIAction.LinkPayload`. -/
def UIAction.LinkPayload (a : UIAction) : Except GoStr LinkActionPayload :=
  if a.type ≠ ActionTypeLink then
    .error ("action type is ".toList ++ a.type ++ ", not link".toList)
  else unmarshalLinkPayload a.payload

/-- `UIAction.UISizePayload`. -/
def UIAction.UISizePayload (a : UIAction) : Except GoStr UISizeActionPayload :=
  if a.type ≠ ActionTypeUISize then
    .error ("action type is ".toList ++ a.type ++ ", not ui-size-change".toList)
  else unmarshalUISizePayload a.payload

theorem parsePayload_of_tool {a : UIAction} (h : a.type = ActionTypeTool) :
    a.ParsePayload = match unmarshalToolPayload a.payload with
      | .ok p => .ok (.tool p)
      | .error e => .error ("invalid tool payload: ".toList ++ e) := by
  rw [UIAction.ParsePayload, if_pos h]

theorem parsePayload_of_intent {a : UIAction} (h : a.type = ActionTypeIntent) :
    a.ParsePayload = match unmarshalIntentPayload a.payload with
      | .ok p => .ok (.intent p)
      | .error e => .error ("invalid intent payload: ".toList ++ e) := by
  rw [UIAction.ParsePayload, if_neg (by rw [h]; decide), if_pos h]

theorem parsePayload_of_prompt {a : UIAction} (h : a.type = ActionTypePrompt) :
    a.ParsePayload = match unmarshalPromptPayload a.payload with
      | .ok p => .ok (.prompt p)
      | .error e => .error ("invalid prompt payload: ".toList ++ e) := by
  rw [UIAction.ParsePayload, if_neg (by rw [h]; decide), if_neg (by rw [h]; decide),
    if_pos h]

theorem parsePayload_of_notify {a : UIAction} (h : a.type = ActionTypeNotify) :
    a.ParsePayload = match unmarshalNotifyPayload a.payload with
      | .ok p => .ok (.notify p)
      | .error e => .error ("invalid notify payload: ".toList ++ e) := by
  rw [UIAction.ParsePayload, if_neg (by rw [h]; decide), if_neg (by rw [h]; decide),
    if_neg (by rw [h]; decide), if_pos h]

theorem parsePayload_of_link {a : UIAction} (h : a.type = ActionTypeLink) :
    a.ParsePayload = match unmarshalLinkPayload a.payload with
      | .ok p => .ok (.link p)
      | .error e => .error ("invalid link payload: ".toList ++ e) := by
  rw [UIAction.ParsePayload, if_neg (by rw [h]; decide), if_neg (by rw [h]; decide),
    if_neg (by rw [h]; decide), if_neg (by rw [h]; decide), if_pos h]

theorem parsePayload_of_uiSize {a : UIAction} (h : a.type = ActionTypeUISize) :
    a.ParsePayload = match unmarshalUISizePayload a.payload with
      | .ok p => .ok (.uiSize p)
      | .error e => .error ("invalid ui-size-change payload: ".toList ++ e) := by
  rw [UIAction.ParsePayload, if_neg (by rw [h]; decide), if_neg (by rw [h]; decide),
    if_neg (by rw [h]; decide), if_neg (by rw [h]; decide), if_neg (by rw [h]; decide),
    if_pos h]

theorem parsePayload_of_unknown {a : UIAction}
    (h : a.type ∉ ([ActionTypeTool, ActionTypeIntent, ActionTypePrompt,
      ActionTypeNotify, ActionTypeLink, ActionTypeUISize] : List GoStr)) :
    a.ParsePayload = .error ("unknown action type: ".toList ++ a.type) := by
  simp only [List.mem_cons, List.mem_singleton, not_or] at h
  obtain ⟨h1, h2, h3, h4, h5, h6⟩ := h
  rw [UIAction.ParsePayload, if_neg h1, if_neg h2, if_neg h3, if_neg h4, if_neg h5,
    if_neg (by simpa using h6)]

/-- C6: `ParsePayload` is a closed switch over the six action tags: each
known tag decodes the raw payload into its specific record and wraps a
decode failure with the tag name; every unknown tag fails with an
explicit unknown-action-type error and never returns a payload value. -/
theorem c6_parse_payload_closed_switch (a : UIAction) :
    (a.type = ActionTypeTool →
      (∀ p, unmarshalToolPayload a.payload = .ok p →
        a.ParsePayload = .ok (.tool p)) ∧
      (∀ e, unmarshalToolPayload a.payload = .error e →
        a.ParsePayload = .error ("invalid tool payload: ".toList ++ e))) ∧
    (a.type = ActionTypeIntent →
      (∀ p, unmarshalIntentPayload a.payload = .ok p →
        a.ParsePayload = .ok (.intent p)) ∧
      (∀ e, unmarshalIntentPayload a.payload = .error e →
        a.ParsePayload = .error ("invalid intent payload: ".toList ++ e))) ∧
    (a.type = ActionTypePrompt →
      (∀ p, unmarshalPromptPayload a.payload = .ok p →
        a.ParsePayload = .ok (.prompt p)) ∧
      (∀ e, unmarshalPromptPayload a.payload = .error e →
        a.ParsePayload = .error ("invalid prompt payload: ".toList ++ e))) ∧
    (a.type = ActionTypeNotify →
      (∀ p, unmarshalNotifyPayload a.payload = .ok p →
        a.ParsePayload = .ok (.notify p)) ∧
      (∀ e, unmarshalNotifyPayload a.payload = .error e →
        a.ParsePayload = .error ("invalid notify payload: ".toList ++ e))) ∧
    (a.type = ActionTypeLink →
      (∀ p, unmarshalLinkPayload a.payload = .ok p →
        a.ParsePayload = .ok (.link p)) ∧
      (∀ e, unmarshalLinkPayload a.payload = .error e →
        a.ParsePayload = .error ("invalid link payload: ".toList ++ e))) ∧
    (a.type = ActionTypeUISize →
      (∀ p, unmarshalUISizePayload a.payload = .ok p →
        a.ParsePayload = .ok (.uiSize p)) ∧
      (∀ e, unmarshalUISizePayload a.payload = .error e →
        a.ParsePayload = .error ("invalid ui-size-change payload: ".toList ++ e))) ∧
    (a.type ∉ ([ActionTypeTool, ActionTypeIntent, ActionTypePrompt,
        ActionTypeNotify, ActionTypeLink, ActionTypeUISize] : List GoStr) →
      (∀ v, a.ParsePayload ≠ .ok v) ∧
      a.ParsePayload = .error ("unknown action type: ".toList ++ a.type)) := by
  refine ⟨fun h => ⟨fun p hp => ?_, fun e he => ?_⟩,
    fun h => ⟨fun p hp => ?_, fun e he => ?_⟩,
    fun h => ⟨fun p hp => ?_, fun e he => ?_⟩,
    fun h => ⟨fun p hp => ?_, fun e he => ?_⟩,
    fun h => ⟨fun p hp => ?_, fun e he => ?_⟩,
    fun h => ⟨fun p hp => ?_, fun e he => ?_⟩,
    fun h => ⟨fun v => ?_, ?_⟩⟩
  · rw [parsePayload_of_tool h, hp]
  · rw [parsePayload_of_tool h, he]
  · rw [parsePayload_of_intent h, hp]
  · rw [parsePayload_of_intent h, he]
  · rw [parsePayload_of_prompt h, hp]
  · rw [parsePayload_of_prompt h, he]
  · rw [parsePayload_of_notify h, hp]
  · rw [parsePayload_of_notify h, he]
  · rw [parsePayload_of_link h, hp]
  · rw [parsePayload_of_link h, he]
  · rw [parsePayload_of_uiSize h, hp]
  · rw [parsePayload_of_uiSize h, he]
  · rw [parsePayload_of_unknown h]
    simp
  · exact parsePayload_of_unknown h

/-- C6 (witness): a concrete well-formed tool action parses to its tool
record, and the tag `bogus` fails with the unknown-action-type error. -/
theorem c6_parse_payload_witness :
    ({ type := ActionTypeTool, messageID := "msg-1".toList,
       payload := JVal.obj [("toolName".toList, JVal.str ("get_status".toList))]
     } : UIAction).ParsePayload =
      .ok (.tool { toolName := "get_status".toList, params := [] }) ∧
    ({ type := "bogus".toList, messageID := [],
       payload := JVal.obj [] } : UIAction).ParsePayload =
      .error ("unknown action type: bogus".toList) := by
  constructor
  · exact (c6_parse_payload_closed_switch _).1 rfl |>.1 _ rfl
  · have hmem : ("bogus".toList : GoStr) ∉
        ([ActionTypeTool, ActionTypeIntent, ActionTypePrompt,
          ActionTypeNotify, ActionTypeLink, ActionTypeUISize] : List GoStr) := by
      decide
    have := ((c6_parse_payload_closed_switch
      { type := "bogus".toList, messageID := [], payload := JVal.obj [] }).2.2.2.2.2.2
      hmem).2
    rw [this]
    rfl

/-! ### Router and handlers (handler.go) -/

/-- A Go `any` value as it appears in results and responses. -/
inductive GoAny where
  | nil
  | str (s : GoStr)
deriving DecidableEq

/-- `UIActionRequest`: the action (a possibly-nil pointer) and the
resource URI.  The opaque `Session` carrier is passed through untouched
and is not modelled. -/
structure UIActionRequest where
  action : Option UIAction
  resourceURI : GoStr

/-- `UIActionResult`: response data and error. -/
structure UIActionResult where
  response : GoAny
  error : Option GoStr

/-- The outcome of a Go call returning `(*UIActionResult, error)`:
either the returned pair, or a nil-pointer-dereference panic. -/
inductive HandlerOut where
  | ret (result : Option UIActionResult) (err : Option GoStr)
  | nilDeref

/-- `UIActionHandler`. -/
def UIActionHandler := UIActionRequest → HandlerOut

/-- `Router`: registries by action type and by resource URI (Go maps,
modelled as functions to `Option`), plus an optional default handler.
The `sync.RWMutex` only serializes access and has no sequential
behavior. -/
structure Router where
  typeHandlers : GoStr → Option UIActionHandler
  resourceHandlers : GoStr → Option UIActionHandler
  defaultHandler : Option UIActionHandler

/-- `NewRouter`: empty registries. -/
def NewRouter : Router :=
  { typeHandlers := fun _ => none
    resourceHandlers := fun _ => none
    defaultHandler := none }

/-- `Router.HandleType`: register (overwriting) a type handler. -/
def Router.HandleType (r : Router) (actionType : GoStr) (h : UIActionHandler) :
    Router :=
  { r with typeHandlers := fun k =>
      if k = actionType then some h else r.typeHandlers k }

/-- `Router.HandleResource`: register (overwriting) a resource handler. -/
def Router.HandleResource (r : Router) (resourceURI : GoStr) (h : UIActionHandler) :
    Router :=
  { r with resourceHandlers := fun k =>
      if k = resourceURI then some h else r.resourceHandlers k }

/-- `Router.SetDefault`. -/
def Router.SetDefault (r : Router) (h : UIActionHandler) : Router :=
  { r with defaultHandler := some h }

/-- Go's `%q` verb on a plain string: surrounding double quotes (escape
sequences for special characters are not modelled; the strings in play
contain none). -/
def goQuote (s : GoStr) : GoStr := '"' :: s ++ ['"']

/-- The message of the no-handler error built at the end of
`Router.Dispatch`. -/
def noHandlerMsg (t uri : GoStr) : GoStr :=
  ("no handler for action type ".toList) ++ goQuote t ++
    (" from resource ".toList) ++ goQuote uri

/-- `Router.Dispatch`: exact-match resource handler first (only for a
non-empty URI), then type handler (only for a non-nil action), then the
default handler; otherwise the error line formats
`req.Action.Type` — which dereferences a nil `Action`. -/
def Router.Dispatch (r : Router) (req : UIActionRequest) : HandlerOut :=
  match (if req.resourceURI ≠ [] then r.resourceHandlers req.resourceURI
         else none) with
  | some h => h req
  | none =>
    match (match req.action with
           | some a => r.typeHandlers a.type
           | none => none) with
    | some h => h req
    | none =>
      match r.defaultHandler with
      | some h => h req
      | none =>
        match req.action with
        | some a => .ret none (some (noHandlerMsg a.type req.resourceURI))
        | none => .nilDeref

/-- A handler returning a fixed string response, as in the priority
test. -/
def handlerReturning (s : GoStr) : UIActionHandler :=
  fun _ => .ret (some { response := .str s, error := none }) none

/-- The Router of the priority scenario: default returning `default`, a
`tool` type handler returning `type`, a resource handler for `ui://test`
returning `resource`. -/
def routerC2 : Router :=
  ((NewRouter.SetDefault (handlerReturning ("default".toList))).HandleType
      ActionTypeTool (handlerReturning ("type".toList))).HandleResource
    ("ui://test".toList) (handlerReturning ("resource".toList))

/-- A request carrying an action with the given tag and a resource URI. -/
def mkReq (uri : GoStr) (t : GoStr) : UIActionRequest :=
  { action := some { type := t, messageID := "msg-1".toList, payload := .obj [] }
    resourceURI := uri }

/-- C2: Router priority with the concrete scenario — exact resource URI
match first, then action tag, then default; and resource matching is
exact string equality: any URI other than `ui://test` (with a tool
action) falls through to the type handler, so there is no prefix or
partial matching. -/
theorem c2_router_priority :
    routerC2.Dispatch (mkReq ("ui://test".toList) ActionTypeTool) =
      .ret (some { response := .str ("resource".toList), error := none }) none ∧
    routerC2.Dispatch (mkReq ("ui://other".toList) ActionTypeTool) =
      .ret (some { response := .str ("type".toList), error := none }) none ∧
    routerC2.Dispatch (mkReq ("ui://other".toList) ActionTypePrompt) =
      .ret (some { response := .str ("default".toList), error := none }) none ∧
    (∀ uri, uri ≠ ("ui://test".toList) →
      routerC2.Dispatch (mkReq uri ActionTypeTool) =
        .ret (some { response := .str ("type".toList), error := none }) none) := by
  refine ⟨rfl, rfl, rfl, fun uri huri => ?_⟩
  rw [Router.Dispatch]
  have h1 : (if (mkReq uri ActionTypeTool).resourceURI ≠ [] then
      routerC2.resourceHandlers (mkReq uri ActionTypeTool).resourceURI
    else none) = none := by
    by_cases hu : uri = []
    · simp [mkReq, hu]
    · have huri2 : ¬ uri = ['u', 'i', ':', '/', '/', 't', 'e', 's', 't'] :=
        fun hh => huri (by rw [hh]; rfl)
      simp [mkReq, hu, routerC2, Router.HandleResource, Router.HandleType,
        Router.SetDefault, NewRouter, huri2]
  rw [h1]
  rfl

/-- C2 (witness): the exact-match clause applied at the concrete URI
`ui://other`. -/
theorem c2_router_priority_witness :
    (("ui://other".toList : GoStr) ≠ ("ui://test".toList)) ∧
    routerC2.Dispatch (mkReq ("ui://other".toList) ActionTypeTool) =
      .ret (some { response := .str ("type".toList), error := none }) none :=
  ⟨by decide, c2_router_priority.2.2.2 _ (by decide)⟩

/-- C4: at the no-handler tier the code is correct for requests carrying
an action — the dispatch error names the attempted tag and URI and its
message contains `no handler` — but a request whose action is absent
(nil) makes the error line dereference `req.Action` and panic (modelled
as `nilDeref`) instead of returning the no-handler error, contradicting
the spec's step 4. -/
theorem c4_dispatch_no_handler :
    (∀ t mid pl uri,
      NewRouter.Dispatch
        { action := some { type := t, messageID := mid, payload := pl }
          resourceURI := uri } =
        .ret none (some (noHandlerMsg t uri)) ∧
      ("no handler".toList) <:+: noHandlerMsg t uri ∧
      t <:+: noHandlerMsg t uri ∧
      uri <:+: noHandlerMsg t uri) ∧
    NewRouter.Dispatch { action := none, resourceURI := [] } = .nilDeref := by
  refine ⟨fun t mid pl uri => ⟨?_, ?_, ?_, ?_⟩, rfl⟩
  · by_cases hu : uri = []
    · subst hu
      rfl
    · rw [Router.Dispatch, if_pos hu]
      rfl
  · refine ⟨[], " for action type ".toList ++ goQuote t ++
      (" from resource ".toList) ++ goQuote uri, ?_⟩
    simp [noHandlerMsg]
  · refine ⟨("no handler for action type ".toList) ++ ['\"'],
      ['\"'] ++ (" from resource ".toList) ++ goQuote uri, ?_⟩
    simp [noHandlerMsg, goQuote]
  · refine ⟨("no handler for action type ".toList) ++ goQuote t ++
      (" from resource ".toList) ++ ['\"'], ['\"'], ?_⟩
    simp [noHandlerMsg, goQuote]

/-! ### Handler adapters (handler.go, Wrap*Handler) -/

/-- `WrapToolHandler`: check the tag, decode the typed payload, call the
wrapped function; its error goes into the result's `Error` field (return
error nil), its value into `Response`. -/
def WrapToolHandler (handler : GoStr → List (GoStr × JVal) → GoAny × Option GoStr) :
    UIActionHandler :=
  fun req =>
    match req.action with
    | none => .nilDeref
    | some a =>
      if a.type ≠ ActionTypeTool then
        .ret none (some ("expected tool action, got ".toList ++ a.type))
      else
        match a.ToolPayload with
        | .error e => .ret none (some e)
        | .ok p =>
          match handler p.toolName p.params with
          | (_, some e) => .ret (some { response := .nil, error := some e }) none
          | (result, none) => .ret (some { response := result, error := none }) none

/-- `WrapIntentHandler`. -/
def WrapIntentHandler (handler : GoStr → List (GoStr × JVal) → GoAny × Option GoStr) :
    UIActionHandler :=
  fun req =>
    match req.action with
    | none => .nilDeref
    | some a =>
      if a.type ≠ ActionTypeIntent then
        .ret none (some ("expected intent action, got ".toList ++ a.type))
      else
        match a.IntentPayload with
        | .error e => .ret none (some e)
        | .ok p =>
          match handler p.intent p.params with
          | (_, some e) => .ret (some { response := .nil, error := some e }) none
          | (result, none) => .ret (some { response := result, error := none }) none

/-- `WrapPromptHandler`. -/
def WrapPromptHandler (handler : GoStr → GoAny × Option GoStr) : UIActionHandler :=
  fun req =>
    match req.action with
    | none => .nilDeref
    | some a =>
      if a.type ≠ ActionTypePrompt then
        .ret none (some ("expected prompt action, got ".toList ++ a.type))
      else
        match a.PromptPayload with
        | .error e => .ret none (some e)
        | .ok p =>
          match handler p.prompt with
          | (_, some e) => .ret (some { response := .nil, error := some e }) none
          | (result, none) => .ret (some { response := result, error := none }) none

/-- `WrapNotifyHandler`: the wrapped function returns no value; success
synthesizes the fixed response `acknowledged`. -/
def WrapNotifyHandler (handler : GoStr → GoStr → Option GoStr) : UIActionHandler :=
  fun req =>
    match req.action with
    | none => .nilDeref
    | some a =>
      if a.type ≠ ActionTypeNotify then
        .ret none (some ("expected notify action, got ".toList ++ a.type))
      else
        match a.NotifyPayload with
        | .error e => .ret none (some e)
        | .ok p =>
          match handler p.message p.level with
          | some e => .ret (some { response := .nil, error := some e }) none
          | none =>
            .ret (some { response := .str ("acknowledged".toList), error := none })
              none

/-- `WrapLinkHandler`: success synthesizes the fixed response `opened`. -/
def WrapLinkHandler (handler : GoStr → Option GoStr) : UIActionHandler :=
  fun req =>
    match req.action with
    | none => .nilDeref
    | some a =>
      if a.type ≠ ActionTypeLink then
        .ret none (some ("expected link action, got ".toList ++ a.type))
      else
        match a.LinkPayload with
        | .error e => .ret none (some e)
        | .ok p =>
          match handler p.url with
          | some e => .ret (some { response := .nil, error := some e }) none
          | none =>
            .ret (some { response := .str ("opened".toList), error := none }) none

/-- `WrapUISizeHandler`: success synthesizes the fixed response
`acknowledged`. -/
def WrapUISizeHandler (handler : Int → Int → Option GoStr) : UIActionHandler :=
  fun req =>
    match req.action with
    | none => .nilDeref
    | some a =>
      if a.type ≠ ActionTypeUISize then
        .ret none (some ("expected ui-size-change action, got ".toList ++ a.type))
      else
        match a.UISizePayload with
        | .error e => .ret none (some e)
        | .ok p =>
          match handler p.height p.width with
          | some e => .ret (some { response := .nil, error := some e }) none
          | none =>
            .ret (some { response := .str ("acknowledged".toList), error := none })
              none

/-- C7: on a matching tag with a decodable payload, every adapter turns a
wrapped-function error into the result's `Error` field (return error
nil), and a wrapped-function success into the result's `Response` —
with `notify` and `ui-size-change` synthesizing `acknowledged` and `link`
synthesizing `opened` for their value-less wrapped functions. -/
theorem c7_adapter_result_packaging (req : UIActionRequest) (a : UIAction)
    (hreq : req.action = some a) :
    (a.type = ActionTypeTool →
      (∀ f p res e, a.ToolPayload = .ok p → f p.toolName p.params = (res, some e) →
        WrapToolHandler f req =
          .ret (some { response := .nil, error := some e }) none) ∧
      (∀ f p res, a.ToolPayload = .ok p → f p.toolName p.params = (res, none) →
        WrapToolHandler f req =
          .ret (some { response := res, error := none }) none)) ∧
    (a.type = ActionTypeIntent →
      (∀ f p res e, a.IntentPayload = .ok p → f p.intent p.params = (res, some e) →
        WrapIntentHandler f req =
          .ret (some { response := .nil, error := some e }) none) ∧
      (∀ f p res, a.IntentPayload = .ok p → f p.intent p.params = (res, none) →
        WrapIntentHandler f req =
          .ret (some { response := res, error := none }) none)) ∧
    (a.type = ActionTypePrompt →
      (∀ f p res e, a.PromptPayload = .ok p → f p.prompt = (res, some e) →
        WrapPromptHandler f req =
          .ret (some { response := .nil, error := some e }) none) ∧
      (∀ f p res, a.PromptPayload = .ok p → f p.prompt = (res, none) →
        WrapPromptHandler f req =
          .ret (some { response := res, error := none }) none)) ∧
    (a.type = ActionTypeNotify →
      (∀ f p e, a.NotifyPayload = .ok p → f p.message p.level = some e →
        WrapNotifyHandler f req =
          .ret (some { response := .nil, error := some e }) none) ∧
      (∀ f p, a.NotifyPayload = .ok p → f p.message p.level = none →
        WrapNotifyHandler f req =
          .ret (some { response := .str ("acknowledged".toList), error := none })
            none)) ∧
    (a.type = ActionTypeLink →
      (∀ f p e, a.LinkPayload = .ok p → f p.url = some e →
        WrapLinkHandler f req =
          .ret (some { response := .nil, error := some e }) none) ∧
      (∀ f p, a.LinkPayload = .ok p → f p.url = none →
        WrapLinkHandler f req =
          .ret (some { response := .str ("opened".toList), error := none }) none)) ∧
    (a.type = ActionTypeUISize →
      (∀ f p e, a.UISizePayload = .ok p → f p.height p.width = some e →
        WrapUISizeHandler f req =
          .ret (some { response := .nil, error := some e }) none) ∧
      (∀ f p, a.UISizePayload = .ok p → f p.height p.width = none →
        WrapUISizeHandler f req =
          .ret (some { response := .str ("acknowledged".toList), error := none })
            none)) := by
  refine ⟨fun ht => ⟨fun f p res e hp hf => ?_, fun f p res hp hf => ?_⟩,
    fun ht => ⟨fun f p res e hp hf => ?_, fun f p res hp hf => ?_⟩,
    fun ht => ⟨fun f p res e hp hf => ?_, fun f p res hp hf => ?_⟩,
    fun ht => ⟨fun f p e hp hf => ?_, fun f p hp hf => ?_⟩,
    fun ht => ⟨fun f p e hp hf => ?_, fun f p hp hf => ?_⟩,
    fun ht => ⟨fun f p e hp hf => ?_, fun f p hp hf => ?_⟩⟩ <;>
  · simp only [WrapToolHandler, WrapIntentHandler, WrapPromptHandler,
      WrapNotifyHandler, WrapLinkHandler, WrapUISizeHandler, hreq]
    rw [if_neg (fun hh => hh ht)]
    rw [hp]
    simp only [hf]

/-- C7 (witness): the tool adapter at a concrete request, in both the
business-error and the success case, plus a notify success synthesizing
`acknowledged`. -/
theorem c7_adapter_result_packaging_witness :
    WrapToolHandler (fun _ _ => (.nil, some ("tool failed".toList)))
      (mkReq [] ActionTypeTool) =
      .ret (some { response := .nil, error := some ("tool failed".toList) }) none ∧
    WrapToolHandler (fun _ _ => (.str ("ok".toList), none))
      (mkReq [] ActionTypeTool) =
      .ret (some { response := .str ("ok".toList), error := none }) none ∧
    WrapNotifyHandler (fun _ _ => none) (mkReq [] ActionTypeNotify) =
      .ret (some { response := .str ("acknowledged".toList), error := none })
        none :=
  ⟨((c7_adapter_result_packaging (mkReq [] ActionTypeTool) _ rfl).1 rfl).1
      _ _ GoAny.nil _ rfl rfl,
   ((c7_adapter_result_packaging (mkReq [] ActionTypeTool) _ rfl).1 rfl).2
      _ _ _ rfl rfl,
   ((c7_adapter_result_packaging (mkReq [] ActionTypeNotify) _ rfl).2.2.2.1
      rfl).2 _ _ rfl rfl⟩

/-- C8: every adapter applied to a request whose action tag differs from
its expected tag returns a type-mismatch transport error (nil result,
non-nil return error); the right-hand side does not mention the wrapped
function, so the wrapped function is never invoked. -/
theorem c8_adapter_type_mismatch (req : UIActionRequest) (a : UIAction)
    (hreq : req.action = some a) :
    (∀ f, a.type ≠ ActionTypeTool → WrapToolHandler f req =
      .ret none (some ("expected tool action, got ".toList ++ a.type))) ∧
    (∀ f, a.type ≠ ActionTypeIntent → WrapIntentHandler f req =
      .ret none (some ("expected intent action, got ".toList ++ a.type))) ∧
    (∀ f, a.type ≠ ActionTypePrompt → WrapPromptHandler f req =
      .ret none (some ("expected prompt action, got ".toList ++ a.type))) ∧
    (∀ f, a.type ≠ ActionTypeNotify → WrapNotifyHandler f req =
      .ret none (some ("expected notify action, got ".toList ++ a.type))) ∧
    (∀ f, a.type ≠ ActionTypeLink → WrapLinkHandler f req =
      .ret none (some ("expected link action, got ".toList ++ a.type))) ∧
    (∀ f, a.type ≠ ActionTypeUISize → WrapUISizeHandler f req =
      .ret none (some ("expected ui-size-change action, got ".toList ++ a.type))) := by
  refine ⟨fun f hne => ?_, fun f hne => ?_, fun f hne => ?_,
    fun f hne => ?_, fun f hne => ?_, fun f hne => ?_⟩ <;>
  · simp only [WrapToolHandler, WrapIntentHandler, WrapPromptHandler,
      WrapNotifyHandler, WrapLinkHandler, WrapUISizeHandler, hreq]
    rw [if_pos hne]

/-- C8 (witness): the tool adapter rejects a prompt-tagged action with
the type-mismatch error, regardless of the wrapped function. -/
theorem c8_adapter_type_mismatch_witness :
    WrapToolHandler (fun _ _ => (.str ("never".toList), none))
      (mkReq [] ActionTypePrompt) =
      .ret none (some ("expected tool action, got prompt".toList)) := by
  have := (c8_adapter_type_mismatch (mkReq [] ActionTypePrompt) _ rfl).1
    (fun _ _ => (.str ("never".toList), none)) (by decide)
  rw [this]
  rfl

/-! ### Responses (response.go) -/

/-- `ResponseTypeReceived = "ui-message-received"`. -/
def ResponseTypeReceived : GoStr := "ui-message-received".toList

/-- `ResponseTypeResponse = "ui-message-response"`. -/
def ResponseTypeResponse : GoStr := "ui-message-response".toList

/-- `ResponseError`: message, optional code and context data. -/
structure ResponseError where
  message : GoStr
  code : GoStr
  data : GoAny
deriving DecidableEq

/-- `ResponsePayload`: success data and error pointer. -/
structure ResponsePayload where
  response : GoAny
  error : Option ResponseError
deriving DecidableEq

/-- `UIResponse`: type, message id and optional payload pointer. -/
structure UIResponse where
  type : GoStr
  messageID : GoStr
  payload : Option ResponsePayload
deriving DecidableEq

/-- `NewReceivedResponse`: acknowledgment with no payload. -/
def NewReceivedResponse (messageID : GoStr) : UIResponse :=
  { type := ResponseTypeReceived, messageID := messageID, payload := none }

/-- `NewSuccessResponse`: payload carrying the result, no error. -/
def NewSuccessResponse (messageID : GoStr) (result : GoAny) : UIResponse :=
  { type := ResponseTypeResponse, messageID := messageID,
    payload := some { response := result, error := none } }

/-- `NewErrorResponse`: payload carrying an error built from the Go
error's message. -/
def NewErrorResponse (messageID : GoStr) (errMsg : GoStr) : UIResponse :=
  { type := ResponseTypeResponse, messageID := messageID,
    payload := some
      { response := .nil,
        error := some { message := errMsg, code := [], data := .nil } } }

/-- `NewErrorResponseWithCode`. -/
def NewErrorResponseWithCode (messageID code message : GoStr) : UIResponse :=
  { type := ResponseTypeResponse, messageID := messageID,
    payload := some
      { response := .nil,
        error := some { message := message, code := code, data := .nil } } }

/-- `NewErrorResponseWithData`. -/
def NewErrorResponseWithData (messageID errMsg : GoStr) (data : GoAny) :
    UIResponse :=
  { type := ResponseTypeResponse, messageID := messageID,
    payload := some
      { response := .nil,
        error := some { message := errMsg, code := [], data := data } } }

/-- `UIResponse.IsSuccess`: a received envelope is always success; a
response envelope is success iff its payload exists and carries no
error. -/
def UIResponse.IsSuccess (r : UIResponse) : Bool :=
  if r.type = ResponseTypeReceived then true
  else
    match r.payload with
    | none => false
    | some p => p.error.isNone

/-- `UIResponse.IsError`: response type with a present payload carrying
an error. -/
def UIResponse.IsError (r : UIResponse) : Bool :=
  decide (r.type = ResponseTypeResponse) &&
    match r.payload with
    | none => false
    | some p => p.error.isSome

/-- `UIActionResult.ToUIResponse`: an error-bearing result becomes an
error response, anything else a success response. -/
def UIActionResult.ToUIResponse (r : UIActionResult) (messageID : GoStr) :
    UIResponse :=
  match r.error with
  | some e => NewErrorResponse messageID e
  | none => NewSuccessResponse messageID r.response

/-- C9: for every result and message id, `ToUIResponse` yields an
envelope of type `ui-message-response` with a non-nil payload — the
ambiguous nil-payload state is never produced by this path — and the
envelope satisfies `IsError` exactly when the result's `Error` field is
non-nil. -/
theorem c9_to_ui_response_total (r : UIActionResult) (messageID : GoStr) :
    (r.ToUIResponse messageID).type = ResponseTypeResponse ∧
    (r.ToUIResponse messageID).payload.isSome = true ∧
    (r.ToUIResponse messageID).IsError = r.error.isSome := by
  cases he : r.error <;>
    simp [UIActionResult.ToUIResponse, he, NewErrorResponse, NewSuccessResponse,
      UIResponse.IsError]

/-- C10: no `UIResponse` value satisfies both `IsSuccess` and
`IsError`. -/
theorem c10_success_error_exclusive (r : UIResponse) :
    (r.IsSuccess && r.IsError) = false := by
  rw [UIResponse.IsSuccess, UIResponse.IsError]
  by_cases ht : r.type = ResponseTypeReceived
  · rw [if_pos ht]
    have hne : ¬ r.type = ResponseTypeResponse := by
      rw [ht]; decide
    simp [hne]
  · rw [if_neg ht]
    cases hp : r.payload with
    | none => simp
    | some p => cases he : p.error <;> simp [he]

end Mcpui
